import Mathlib

/-
Verification of the Roxonn-Platform community bounty subsystem.

Shallow embedding of:
  - DatabaseStorage.calculateBountyFees, recordWebhookDelivery, recordPayout,
    claimCommunityBountyAtomic (code in docs/SECURITY_AUDIT_FINDINGS.md,
    storage layer section),
  - server/routes/communityBounties.ts pay and claim endpoints,
  - server/routes/webhookRoutes.ts handleGitHubAppWebhook idempotency gate,
  - server/communityBountyRelayer.ts processClaimedBounty, processClaimedBounties,
    startCommunityBountyRelayer scheduling,
  - contracts/CommunityBountyEscrow.sol completeBounty,
  - the comment command parser (server/github.ts, not present in the source
    tree; modelled from the specification).

Database decimal columns (8 fractional digits) are embedded as exact
rationals; JavaScript double arithmetic in fee computation is abstracted to
exact rational arithmetic over those fixed-point values.  Uint256 values of
the contract are embedded as natural numbers (Solidity 0.8 reverts on
overflow, so in-range arithmetic is exact).
-/

namespace Roxonn

/-- Rounding helper used by DatabaseStorage.calculateBountyFees:
the source computes Math.round(num * 100000000) / 100000000, and JS
Math.round for nonnegative input is the floor of x + 1/2. -/
def roundTo8 (x : ℚ) : ℚ := (⌊x * 100000000 + 1/2⌋ : ℚ) / 100000000

/-- Result record of DatabaseStorage.calculateBountyFees, field names as in
the source. -/
structure FeeBreakdown where
  baseBountyAmount : ℚ
  clientFeeAmount : ℚ
  contributorFeeAmount : ℚ
  totalPlatformFee : ℚ
  totalPaidByClient : ℚ
  contributorPayout : ℚ
deriving Repr, DecidableEq

/-- DatabaseStorage.calculateBountyFees: 2.5 percent client fee and 2.5
percent contributor fee, each rounded to 8 decimals; 0.025 = 25/1000. -/
def calculateBountyFees (baseBountyAmount : ℚ) : FeeBreakdown :=
  let clientFee := roundTo8 (baseBountyAmount * (25/1000))
  let contributorFee := roundTo8 (baseBountyAmount * (25/1000))
  let totalFee := roundTo8 (clientFee + contributorFee)
  let totalPaid := roundTo8 (baseBountyAmount + clientFee)
  let payout := roundTo8 (baseBountyAmount - contributorFee)
  { baseBountyAmount := roundTo8 baseBountyAmount
    clientFeeAmount := clientFee
    contributorFeeAmount := contributorFee
    totalPlatformFee := totalFee
    totalPaidByClient := totalPaid
    contributorPayout := payout }

lemma roundTo8_int (n : ℤ) : roundTo8 ((n : ℚ) / 100000000) = (n : ℚ) / 100000000 := by
  unfold roundTo8
  have h1 : ((n : ℚ) / 100000000) * 100000000 = (n : ℚ) := by
    field_simp
  rw [h1]
  have h2 : ((n : ℚ) + 1/2) = (1/2 : ℚ) + (n : ℤ) := by ring
  rw [h2, Int.floor_add_int]
  norm_num

lemma roundTo8_fixed {x : ℚ} (h : ∃ n : ℤ, x = (n : ℚ) / 100000000) :
    roundTo8 x = x := by
  obtain ⟨n, rfl⟩ := h
  exact roundTo8_int n

lemma roundTo8_isFixed (x : ℚ) : ∃ n : ℤ, roundTo8 x = (n : ℚ) / 100000000 :=
  ⟨⌊x * 100000000 + 1/2⌋, rfl⟩

lemma fees_clientFee (b : ℚ) :
    (calculateBountyFees b).clientFeeAmount = roundTo8 (b * (25/1000)) := rfl

lemma fees_contributorFee (b : ℚ) :
    (calculateBountyFees b).contributorFeeAmount = roundTo8 (b * (25/1000)) := rfl

lemma fees_totalFee (b : ℚ) :
    (calculateBountyFees b).totalPlatformFee
      = roundTo8 (roundTo8 (b * (25/1000)) + roundTo8 (b * (25/1000))) := rfl

lemma fees_totalPaid (b : ℚ) :
    (calculateBountyFees b).totalPaidByClient
      = roundTo8 (b + roundTo8 (b * (25/1000))) := rfl

lemma fees_payout (b : ℚ) :
    (calculateBountyFees b).contributorPayout
      = roundTo8 (b - roundTo8 (b * (25/1000))) := rfl

/-- Shared helper: the five component identities of calculateBountyFees on
8-decimal fixed-point inputs. -/
lemma fees_components (b : ℚ) (n : ℤ) (hfix : b = (n : ℚ) / 100000000) :
    (calculateBountyFees b).clientFeeAmount = roundTo8 (b * (25/1000)) ∧
    (calculateBountyFees b).contributorFeeAmount = roundTo8 (b * (25/1000)) ∧
    (calculateBountyFees b).totalPlatformFee =
      (calculateBountyFees b).clientFeeAmount + (calculateBountyFees b).contributorFeeAmount ∧
    (calculateBountyFees b).totalPaidByClient = b + (calculateBountyFees b).clientFeeAmount ∧
    (calculateBountyFees b).contributorPayout = b - (calculateBountyFees b).contributorFeeAmount := by
  obtain ⟨m, hm⟩ := roundTo8_isFixed (b * (25/1000))
  refine ⟨rfl, rfl, ?_, ?_, ?_⟩
  · rw [fees_totalFee, fees_clientFee, fees_contributorFee, hm]
    rw [roundTo8_fixed ⟨m + m, by push_cast; ring⟩]
  · rw [fees_totalPaid, fees_clientFee, hm, hfix]
    rw [roundTo8_fixed ⟨n + m, by push_cast; ring⟩]
  · rw [fees_payout, fees_contributorFee, hm, hfix]
    rw [roundTo8_fixed ⟨n - m, by push_cast; ring⟩]

/-- Claim C6: for every base amount greater than 0 (an 8-decimal fixed-point
value, as stored in the DECIMAL columns), calculateBountyFees returns
clientFeeAmount equal to contributorFeeAmount equal to base times 0.025
rounded to 8 decimal places, totalPlatformFee equal to clientFeeAmount plus
contributorFeeAmount, totalPaidByClient equal to base plus clientFeeAmount,
and contributorPayout equal to base minus contributorFeeAmount. -/
theorem calculateBountyFees_spec (b : ℚ) (n : ℕ) (hpos : 0 < b)
    (hfix : b = (n : ℚ) / 100000000) :
    (calculateBountyFees b).clientFeeAmount = roundTo8 (b * (25/1000)) ∧
    (calculateBountyFees b).contributorFeeAmount = (calculateBountyFees b).clientFeeAmount ∧
    (calculateBountyFees b).totalPlatformFee =
      (calculateBountyFees b).clientFeeAmount + (calculateBountyFees b).contributorFeeAmount ∧
    (calculateBountyFees b).totalPaidByClient = b + (calculateBountyFees b).clientFeeAmount ∧
    (calculateBountyFees b).contributorPayout = b - (calculateBountyFees b).contributorFeeAmount := by
  have hz : b = (((n : ℤ) : ℚ)) / 100000000 := by rw [hfix]; norm_num
  obtain ⟨h1, h2, h3, h4, h5⟩ := fees_components b (n : ℤ) hz
  exact ⟨h1, h2.trans h1.symm, h3, h4, h5⟩

/-- Witness for C6 at base = 100. -/
theorem calculateBountyFees_spec_witness :
    (calculateBountyFees 100).totalPaidByClient = 100 + (calculateBountyFees 100).clientFeeAmount ∧
    (calculateBountyFees 100).contributorPayout = 100 - (calculateBountyFees 100).contributorFeeAmount := by
  have h := calculateBountyFees_spec 100 10000000000 (by norm_num) (by norm_num)
  exact ⟨h.2.2.2.1, h.2.2.2.2⟩

/-- Counterexample to C7 as stated: at base = 100, totalPaidByClient minus
totalPlatformFee is 97.5, not 100. -/
theorem fee_roundTrip_counterexample :
    ¬ ((calculateBountyFees 100).totalPaidByClient
        - (calculateBountyFees 100).totalPlatformFee = 100) := by
  have hcf : roundTo8 ((100 : ℚ) * (25/1000)) = 5/2 := by
    rw [show ((100 : ℚ) * (25/1000)) = ((250000000 : ℤ) : ℚ) / 100000000 by norm_num,
      roundTo8_int]
    norm_num
  have htf : (calculateBountyFees 100).totalPlatformFee = 5 := by
    rw [fees_totalFee, hcf,
      show ((5 : ℚ)/2 + 5/2) = ((500000000 : ℤ) : ℚ) / 100000000 by norm_num,
      roundTo8_int]
    norm_num
  have htp : (calculateBountyFees 100).totalPaidByClient = 205/2 := by
    rw [fees_totalPaid, hcf,
      show ((100 : ℚ) + 5/2) = ((10250000000 : ℤ) : ℚ) / 100000000 by norm_num,
      roundTo8_int]
    norm_num
  rw [htp, htf]
  norm_num

/-- Claim C7 amended: for every positive 8-decimal base amount, the fee
breakdown satisfies totalPaidByClient minus totalPlatformFee equals base
minus clientFeeAmount, which equals contributorPayout (the round trip
recovers base only after adding the client fee back). -/
theorem fee_roundTrip_amended (b : ℚ) (n : ℕ) (hpos : 0 < b)
    (hfix : b = (n : ℚ) / 100000000) :
    (calculateBountyFees b).totalPaidByClient - (calculateBountyFees b).totalPlatformFee
      = b - (calculateBountyFees b).clientFeeAmount ∧
    (calculateBountyFees b).totalPaidByClient - (calculateBountyFees b).totalPlatformFee
      = (calculateBountyFees b).contributorPayout := by
  have hz : b = (((n : ℤ) : ℚ)) / 100000000 := by rw [hfix]; norm_num
  obtain ⟨h1, h2, h3, h4, h5⟩ := fees_components b (n : ℤ) hz
  constructor
  · rw [h3, h4, h2, h1]
    ring
  · rw [h3, h4, h5, h2, h1]
    ring

/-- Witness for C7 amended at base = 100. -/
theorem fee_roundTrip_amended_witness :
    (calculateBountyFees 100).totalPaidByClient - (calculateBountyFees 100).totalPlatformFee
      = (calculateBountyFees 100).contributorPayout :=
  (fee_roundTrip_amended 100 10000000000 (by norm_num) (by norm_num)).2

/-- Currency enum of the community bounty tables (CHECK constraint: currency
IN XDC, ROXN, USDC). -/
inductive Currency
  | XDC
  | ROXN
  | USDC
deriving DecidableEq, Repr

/-- Status strings of the community_bounties table. -/
inductive CBStatus
  | pendingPayment
  | funded
  | claimed
  | completed
  | failedVerification
  | refunded
deriving DecidableEq, Repr

/-- The status string stored in the database for each status value. -/
def CBStatus.name : CBStatus → String
  | .pendingPayment => "pending_payment"
  | .funded => "funded"
  | .claimed => "claimed"
  | .completed => "completed"
  | .failedVerification => "failed_verification"
  | .refunded => "refunded"

/-- Row of the community_bounties table, restricted to the columns the
verified operations read or write. -/
structure CommunityBounty where
  id : ℕ
  creatorUserId : ℕ
  githubRepoOwner : String
  githubRepoName : String
  githubIssueNumber : ℕ
  githubInstallationId : Option String
  amount : ℚ
  baseBountyAmount : Option ℚ
  currency : Currency
  status : CBStatus
  claimedByUserId : Option ℕ
  claimedByGithubUsername : Option String
  claimedPrNumber : Option ℕ
  claimedPrUrl : Option String
  claimedAt : Option ℕ
  escrowTxHash : Option String
  blockchainBountyId : Option ℕ
  payoutTxHash : Option String
  payoutRecipientAddress : Option String
  expiresAt : Option ℕ
deriving DecidableEq, Repr

/-- Row of the payouts table, restricted to the columns the verified
operations use; the unique key is (repositoryGithubId, issueNumber). -/
structure PayoutRow where
  repositoryGithubId : String
  issueNumber : ℕ
  contributorGithubUsername : String
  contributorPayout : ℚ
  transactionHash : String
deriving DecidableEq, Repr

/-- Row of the webhook_deliveries table (delivery id is globally unique). -/
structure WebhookRow where
  deliveryId : String
  status : String
deriving DecidableEq, Repr

/-- Persistent state owned by DatabaseStorage: the three tables the claims
are about. -/
structure StoreState where
  bounties : List CommunityBounty
  payouts : List PayoutRow
  deliveries : List WebhookRow
deriving DecidableEq, Repr

/-- storage.getCommunityBounty: SELECT by primary key. -/
def getCommunityBounty (s : StoreState) (bountyId : ℕ) : Option CommunityBounty :=
  s.bounties.find? (fun b => b.id == bountyId)

/-- UPDATE of the community_bounties row with the given primary key. -/
def putCommunityBounty (s : StoreState) (bountyId : ℕ) (nb : CommunityBounty) : StoreState :=
  { s with bounties := s.bounties.map (fun b => if b.id = bountyId then nb else b) }

/-- The SET clause of the claim transaction: status claimed plus the five
claim fields, all other columns untouched. -/
def claimedUpdate (b : CommunityBounty) (userId : ℕ) (githubUsername : String)
    (prNumber : ℕ) (prUrl : String) (now : ℕ) : CommunityBounty :=
  { b with
    status := CBStatus.claimed
    claimedByUserId := some userId
    claimedByGithubUsername := some githubUsername
    claimedPrNumber := some prNumber
    claimedPrUrl := some prUrl
    claimedAt := some now }

/-- DatabaseStorage.claimCommunityBountyAtomic (docs/SECURITY_AUDIT_FINDINGS.md
storage section): one transaction that locks the row with SELECT FOR UPDATE,
checks the bounty exists and has status funded, and writes the claim fields
together with status claimed.  The transaction serializes concurrent
callers, so concurrent execution is embedded as sequential composition; a
thrown error rolls the transaction back, which the Except error branch
models by returning no state. -/
def claimCommunityBountyAtomic (s : StoreState) (bountyId userId : ℕ)
    (githubUsername : String) (prNumber : ℕ) (prUrl : String) (now : ℕ) :
    Except String (StoreState × CommunityBounty) :=
  match getCommunityBounty s bountyId with
  | none => .error "Bounty not found"
  | some bounty =>
    if bounty.status = CBStatus.funded then
      let nb := claimedUpdate bounty userId githubUsername prNumber prUrl now
      .ok (putCommunityBounty s bountyId nb, nb)
    else
      .error ("Bounty is not claimable (status: " ++ bounty.status.name ++ ")")

lemma find?_map_update (l : List CommunityBounty) (bid : ℕ) (nb : CommunityBounty)
    (h : nb.id = bid) :
    (l.map (fun b => if b.id = bid then nb else b)).find? (fun b => b.id == bid)
      = (l.find? (fun b => b.id == bid)).map (fun _ => nb) := by
  induction l with
  | nil => rfl
  | cons x xs ih =>
    simp only [List.map_cons, List.find?_cons]
    by_cases hx : x.id = bid
    · rw [if_pos hx]
      have h1 : (nb.id == bid) = true := by simp [h]
      have h2 : (x.id == bid) = true := by simp [hx]
      simp [h1, h2]
    · rw [if_neg hx]
      have h2 : (x.id == bid) = false := by simp [hx]
      simp [h2, ih]

lemma getCommunityBounty_put (s : StoreState) (bid : ℕ) (nb : CommunityBounty)
    (h : nb.id = bid) :
    getCommunityBounty (putCommunityBounty s bid nb) bid
      = (getCommunityBounty s bid).map (fun _ => nb) := by
  unfold getCommunityBounty putCommunityBounty
  exact find?_map_update s.bounties bid nb h

lemma getCommunityBounty_id {s : StoreState} {bid : ℕ} {b : CommunityBounty}
    (h : getCommunityBounty s bid = some b) : b.id = bid := by
  unfold getCommunityBounty at h
  have := List.find?_some h
  simpa using this

lemma claimAtomic_of_found {s : StoreState} {bid : ℕ} {b : CommunityBounty}
    (h : getCommunityBounty s bid = some b) (u : ℕ) (g : String) (prN : ℕ)
    (prU : String) (t : ℕ) :
    claimCommunityBountyAtomic s bid u g prN prU t =
      if b.status = CBStatus.funded then
        .ok (putCommunityBounty s bid (claimedUpdate b u g prN prU t),
          claimedUpdate b u g prN prU t)
      else
        .error ("Bounty is not claimable (status: " ++ b.status.name ++ ")") := by
  unfold claimCommunityBountyAtomic
  rw [h]

/-- Claim C1: claimCommunityBountyAtomic succeeds exactly when the bounty
exists with status funded, in which case it sets status claimed and writes
the claimer and PR fields in one atomic transaction; on a bounty whose
status is not funded it fails with a not-claimable error and leaves the
bounty unchanged, so of two claim calls on the same funded bounty exactly
one succeeds and the other fails. -/
theorem claimCommunityBountyAtomic_spec (s : StoreState) (bid u1 u2 prN1 prN2 t1 t2 : ℕ)
    (g1 g2 prU1 prU2 : String) (b : CommunityBounty)
    (hfound : getCommunityBounty s bid = some b) :
    (b.status = CBStatus.funded →
      ∃ s1 nb, claimCommunityBountyAtomic s bid u1 g1 prN1 prU1 t1 = .ok (s1, nb) ∧
        nb.status = CBStatus.claimed ∧
        nb.claimedByUserId = some u1 ∧
        nb.claimedByGithubUsername = some g1 ∧
        nb.claimedPrNumber = some prN1 ∧
        nb.claimedPrUrl = some prU1 ∧
        getCommunityBounty s1 bid = some nb ∧
        ∃ e, claimCommunityBountyAtomic s1 bid u2 g2 prN2 prU2 t2 = .error e) ∧
    (b.status ≠ CBStatus.funded →
      ∃ e, claimCommunityBountyAtomic s bid u1 g1 prN1 prU1 t1 = .error e) := by
  have hid : b.id = bid := getCommunityBounty_id hfound
  constructor
  · intro hfunded
    have hget1 : getCommunityBounty
        (putCommunityBounty s bid (claimedUpdate b u1 g1 prN1 prU1 t1)) bid
        = some (claimedUpdate b u1 g1 prN1 prU1 t1) := by
      rw [getCommunityBounty_put s bid (claimedUpdate b u1 g1 prN1 prU1 t1) hid, hfound]
      rfl
    refine ⟨putCommunityBounty s bid (claimedUpdate b u1 g1 prN1 prU1 t1),
      claimedUpdate b u1 g1 prN1 prU1 t1, ?_, rfl, rfl, rfl, rfl, rfl, hget1, ?_⟩
    · rw [claimAtomic_of_found hfound, if_pos hfunded]
    · have h2 : claimCommunityBountyAtomic
          (putCommunityBounty s bid (claimedUpdate b u1 g1 prN1 prU1 t1)) bid u2 g2 prN2 prU2 t2
          = .error ("Bounty is not claimable (status: "
              ++ (claimedUpdate b u1 g1 prN1 prU1 t1).status.name ++ ")") := by
        rw [claimAtomic_of_found hget1, if_neg (by simp [claimedUpdate])]
      exact ⟨_, h2⟩
  · intro hnot
    have h1 : claimCommunityBountyAtomic s bid u1 g1 prN1 prU1 t1
        = .error ("Bounty is not claimable (status: " ++ b.status.name ++ ")") := by
      rw [claimAtomic_of_found hfound, if_neg hnot]
    exact ⟨_, h1⟩

/-- Baseline bounty record used to build concrete test fixtures. -/
def baseBounty : CommunityBounty :=
  { id := 1
    creatorUserId := 10
    githubRepoOwner := "octo"
    githubRepoName := "reposix"
    githubIssueNumber := 5
    githubInstallationId := some "777"
    amount := 100
    baseBountyAmount := some 100
    currency := Currency.USDC
    status := CBStatus.funded
    claimedByUserId := none
    claimedByGithubUsername := none
    claimedPrNumber := none
    claimedPrUrl := none
    claimedAt := none
    escrowTxHash := some "0xescrow"
    blockchainBountyId := some 11
    payoutTxHash := none
    payoutRecipientAddress := none
    expiresAt := none }

/-- Store fixture holding one funded bounty. -/
def fundedStore : StoreState :=
  { bounties := [baseBounty], payouts := [], deliveries := [] }

/-- Witness for C1: on the funded fixture, a first claim by user 21 succeeds
and a second claim by user 22 fails. -/
theorem claimCommunityBountyAtomic_spec_witness :
    ∃ s1 nb, claimCommunityBountyAtomic fundedStore 1 21 "alice" 7 "pr7" 1000 = .ok (s1, nb) ∧
      nb.status = CBStatus.claimed ∧
      nb.claimedByUserId = some 21 ∧
      nb.claimedByGithubUsername = some "alice" ∧
      nb.claimedPrNumber = some 7 ∧
      nb.claimedPrUrl = some "pr7" ∧
      getCommunityBounty s1 1 = some nb ∧
      ∃ e, claimCommunityBountyAtomic s1 1 22 "bob" 8 "pr8" 1001 = .error e :=
  (claimCommunityBountyAtomic_spec fundedStore 1 21 22 7 8 1000 1001
    "alice" "bob" "pr7" "pr8" baseBounty (by rfl)).1 (by rfl)

/-- SELECT over webhook_deliveries by the unique delivery id. -/
def hasDelivery (s : StoreState) (deliveryId : String) : Bool :=
  s.deliveries.any (fun r => r.deliveryId == deliveryId)

/-- DatabaseStorage.recordWebhookDelivery (docs/SECURITY_AUDIT_FINDINGS.md
storage section): INSERT ... ON CONFLICT (delivery_id) DO NOTHING with
status processing; returns true exactly when the row was inserted, false
for a duplicate without touching the table.  The metadata columns (event
type, action, repository, installation) do not influence the result and
are omitted. -/
def recordWebhookDelivery (s : StoreState) (deliveryId : String) : Bool × StoreState :=
  if hasDelivery s deliveryId then
    (false, s)
  else
    (true, { s with deliveries :=
      s.deliveries ++ [{ deliveryId := deliveryId, status := "processing" }] })

/-- HTTP reply of the webhook endpoint. -/
structure WebhookReply where
  status : ℕ
  message : String
deriving DecidableEq, Repr

/-- handleGitHubAppWebhook after signature and installation validation
(server/routes/webhookRoutes.ts lines 58-71): recordWebhookDelivery runs
before any event dispatch; a duplicate delivery is acknowledged with HTTP
200 and the handler returns at once.  The event dispatch that follows for a
first delivery is abstracted as the process argument returning the reply,
the performed side effects, and the updated store. -/
def handleGitHubAppWebhook {α : Type} (s : StoreState) (deliveryId : String)
    (process : StoreState → WebhookReply × List α × StoreState) :
    WebhookReply × List α × StoreState :=
  let r := recordWebhookDelivery s deliveryId
  if r.1 = false then
    ({ status := 200, message := "Duplicate delivery ignored" }, [], r.2)
  else
    process r.2

/-- Claim C2: the first recordWebhookDelivery call for a delivery id returns
true, every later call returns false without side effects, and the webhook
handler acknowledges a duplicate delivery with HTTP 200 and performs no
side-effecting processing for it. -/
theorem recordWebhookDelivery_idempotent (s : StoreState) (d : String)
    (hnew : hasDelivery s d = false) :
    (recordWebhookDelivery s d).1 = true ∧
    (recordWebhookDelivery (recordWebhookDelivery s d).2 d).1 = false ∧
    (recordWebhookDelivery (recordWebhookDelivery s d).2 d).2 = (recordWebhookDelivery s d).2 ∧
    (∀ (α : Type) (process : StoreState → WebhookReply × List α × StoreState),
      handleGitHubAppWebhook (recordWebhookDelivery s d).2 d process
        = ({ status := 200, message := "Duplicate delivery ignored" }, [],
            (recordWebhookDelivery s d).2)) := by
  have e1 : recordWebhookDelivery s d
      = (true, { s with deliveries :=
          s.deliveries ++ [{ deliveryId := d, status := "processing" }] }) := by
    unfold recordWebhookDelivery
    rw [if_neg]
    simp [hnew]
  have hdup : hasDelivery
      { s with deliveries :=
        s.deliveries ++ [{ deliveryId := d, status := "processing" }] } d = true := by
    simp [hasDelivery]
  have e2 : recordWebhookDelivery
      { s with deliveries :=
        s.deliveries ++ [{ deliveryId := d, status := "processing" }] } d
      = (false, { s with deliveries :=
          s.deliveries ++ [{ deliveryId := d, status := "processing" }] }) := by
    unfold recordWebhookDelivery
    rw [if_pos hdup]
  refine ⟨?_, ?_, ?_, ?_⟩
  · simp [e1]
  · simp [e1, e2]
  · simp [e1, e2]
  · intro α process
    simp [handleGitHubAppWebhook, e1, e2]

/-- Witness for C2 on a store with no recorded deliveries. -/
theorem recordWebhookDelivery_idempotent_witness :
    (recordWebhookDelivery fundedStore "del-1").1 = true ∧
    (recordWebhookDelivery (recordWebhookDelivery fundedStore "del-1").2 "del-1").1 = false ∧
    @handleGitHubAppWebhook ℕ (recordWebhookDelivery fundedStore "del-1").2 "del-1"
        (fun st => ({ status := 202, message := "processed" }, [0], st))
      = ({ status := 200, message := "Duplicate delivery ignored" }, [],
          (recordWebhookDelivery fundedStore "del-1").2) := by
  have h := recordWebhookDelivery_idempotent fundedStore "del-1" (by rfl)
  exact ⟨h.1, h.2.1, h.2.2.2 ℕ _⟩

/-- Result shape returned by verifyPRMergedAndClosesIssue: a verified flag
plus an optional reason string.  The relayer branches only on the flag; no
transient/terminal distinction exists in the interface
(docs/SECURITY_AUDIT_FINDINGS.md HIGH-3 records that rate limits and
network timeouts surface here as verified false). -/
structure VerificationResult where
  verified : Bool
  error : Option String
deriving DecidableEq, Repr

/-- Outcome of one awaited external call: the promise resolves with a value
or rejects with a thrown error. -/
inductive CallOutcome (α : Type)
  | ok (value : α)
  | thrown (msg : String)
deriving DecidableEq, Repr

/-- Receipt returned by blockchain.completeCommunityBounty. -/
structure CompletionReceipt where
  txHash : String
  blockNumber : ℕ
deriving DecidableEq, Repr

/-- Outcomes of the external calls made by one processClaimedBounty run, in
program order: GitHub verification, contributor lookup, the on-chain
completion, and the final status UPDATE. -/
structure RelayerEnv where
  verify : CallOutcome VerificationResult
  contributorWallet : CallOutcome (Option String)
  ledger : CallOutcome CompletionReceipt
  finalUpdate : CallOutcome Unit
deriving DecidableEq, Repr

/-- Settlement key the relayer writes into the payouts table:
repositoryGithubId is the string community-OWNER-REPO, paired with the
issue number. -/
def settlementKey (b : CommunityBounty) : String × ℕ :=
  ("community-" ++ b.githubRepoOwner ++ "-" ++ b.githubRepoName, b.githubIssueNumber)

/-- Duplicate check of the payouts UNIQUE(repository_github_id, issue_number)
constraint. -/
def hasPayout (s : StoreState) (key : String × ℕ) : Bool :=
  s.payouts.any (fun p => p.repositoryGithubId == key.1 && p.issueNumber == key.2)

/-- DatabaseStorage.recordPayout (docs/SECURITY_AUDIT_FINDINGS.md storage
section): plain INSERT; the unique constraint turns a duplicate settlement
key into the thrown error below, and no second row is written. -/
def recordPayout (s : StoreState) (p : PayoutRow) : Except String (StoreState × PayoutRow) :=
  if hasPayout s (p.repositoryGithubId, p.issueNumber) then
    .error "Payout already recorded for this issue"
  else
    .ok ({ s with payouts := s.payouts ++ [p] }, p)

/-- server/communityBountyRelayer.ts processClaimedBounty.  Returns the new
store plus the settlement keys for which blockchain.completeCommunityBounty
was invoked during the run.  Control flow mirrors the source: a bounty that
is missing, or no longer claimed, is skipped; missing claim fields or
installation id set status failed_verification; a verification result with
verified false sets failed_verification (whatever the reason); a thrown
external call is caught by the outer try and leaves the store as is; a
recordPayout failure is caught and processing continues; the final UPDATE
sets status completed. -/
def processClaimedBounty (s : StoreState) (bountyId : ℕ) (env : RelayerEnv) :
    StoreState × List (String × ℕ) :=
  match getCommunityBounty s bountyId with
  | none => (s, [])
  | some bounty =>
    if bounty.status ≠ CBStatus.claimed then (s, [])
    else if bounty.claimedPrNumber = none ∨ bounty.claimedByGithubUsername = none then
      (putCommunityBounty s bountyId { bounty with status := CBStatus.failedVerification }, [])
    else if bounty.githubInstallationId = none then
      (putCommunityBounty s bountyId { bounty with status := CBStatus.failedVerification }, [])
    else
      match env.verify with
      | .thrown _ => (s, [])
      | .ok v =>
        if v.verified = false then
          (putCommunityBounty s bountyId { bounty with status := CBStatus.failedVerification }, [])
        else
          match env.contributorWallet with
          | .thrown _ => (s, [])
          | .ok none =>
            (putCommunityBounty s bountyId { bounty with status := CBStatus.failedVerification }, [])
          | .ok (some wallet) =>
            match env.ledger with
            | .thrown _ => (s, [settlementKey bounty])
            | .ok receipt =>
              let fees := calculateBountyFees (bounty.baseBountyAmount.getD bounty.amount)
              let s2 := match recordPayout s
                  { repositoryGithubId := (settlementKey bounty).1
                    issueNumber := bounty.githubIssueNumber
                    contributorGithubUsername := bounty.claimedByGithubUsername.getD ""
                    contributorPayout := fees.contributorPayout
                    transactionHash := receipt.txHash } with
                | .ok rp => rp.1
                | .error _ => s
              match env.finalUpdate with
              | .thrown _ => (s2, [settlementKey bounty])
              | .ok _ =>
                (putCommunityBounty s2 bountyId { bounty with
                  status := CBStatus.completed
                  payoutTxHash := some receipt.txHash
                  payoutRecipientAddress := some wallet }, [settlementKey bounty])

/-- Fixture: the funded bounty after a successful claim by user 21. -/
def claimedBounty : CommunityBounty :=
  { baseBounty with
    status := CBStatus.claimed
    claimedByUserId := some 21
    claimedByGithubUsername := some "alice"
    claimedPrNumber := some 7
    claimedPrUrl := some "pr7"
    claimedAt := some 1000 }

/-- Store fixture holding one claimed bounty awaiting the relayer. -/
def claimedStore : StoreState :=
  { bounties := [claimedBounty], payouts := [], deliveries := [] }

/-- Run environment in which GitHub answers with a transient failure: the
verification call resolves with verified false and a rate limit reason. -/
def transientVerifyEnv : RelayerEnv :=
  { verify := CallOutcome.ok { verified := false, error := some "GitHub API rate limit exceeded" }
    contributorWallet := CallOutcome.ok (some "0xwallet")
    ledger := CallOutcome.ok { txHash := "0xt", blockNumber := 1 }
    finalUpdate := CallOutcome.ok () }

/-- Claim C4 (code bug): on a claimed bounty whose verification call
resolves with verified false for a transient reason (GitHub rate limit),
the relayer sets status failed_verification instead of leaving the bounty
claimed for retry, and no ledger call is made.  This contradicts the
function doc comment in communityBountyRelayer.ts (keep status claimed on
verification failure) and HIGH-3 of docs/SECURITY_AUDIT_FINDINGS.md. -/
theorem transient_failure_marks_failed :
    (getCommunityBounty (processClaimedBounty claimedStore 1 transientVerifyEnv).1 1).map
        CommunityBounty.status = some CBStatus.failedVerification ∧
    (processClaimedBounty claimedStore 1 transientVerifyEnv).2 = [] := by
  exact ⟨rfl, rfl⟩

/-- Run environment in which verification and the ledger call succeed but
the final status UPDATE throws (the source doc comment itself notes this
case: bounty completed on-chain but DB out of sync). -/
def ledgerOkUpdateFailEnv : RelayerEnv :=
  { verify := CallOutcome.ok { verified := true, error := none }
    contributorWallet := CallOutcome.ok (some "0xwallet")
    ledger := CallOutcome.ok { txHash := "0xt1", blockNumber := 100 }
    finalUpdate := CallOutcome.thrown "connection reset during UPDATE" }

/-- Run environment in which every external call succeeds. -/
def ledgerOkEnv : RelayerEnv :=
  { verify := CallOutcome.ok { verified := true, error := none }
    contributorWallet := CallOutcome.ok (some "0xwallet")
    ledger := CallOutcome.ok { txHash := "0xt2", blockNumber := 101 }
    finalUpdate := CallOutcome.ok () }

/-- Counterexample to C3 as stated: the relayer invokes the on-chain
completion before consulting the payouts table, and a recordPayout failure
is swallowed, so when the completion-status UPDATE of a first run throws,
the next sweep invokes the escrow completion a second time for the same
settlement key (community-octo-reposix, issue 5). -/
theorem payout_once_counterexample :
    (processClaimedBounty claimedStore 1 ledgerOkUpdateFailEnv).2
        = [("community-octo-reposix", 5)] ∧
    (processClaimedBounty (processClaimedBounty claimedStore 1 ledgerOkUpdateFailEnv).1 1
        ledgerOkEnv).2 = [("community-octo-reposix", 5)] := by
  exact ⟨rfl, rfl⟩

/-- Claim C3 amended: once a payout row exists for a settlement key, a
second recordPayout with that key fails with the already-recorded error and
inserts nothing; but the escrow completion is not gated on the payouts
table: a processClaimedBounty run on a still-claimed bounty with complete
fields and successful external calls invokes the ledger exactly once even
when the key is already recorded, so at-most-once per key is enforced only
through the bounty status, not the settlement key. -/
theorem recordPayout_amended (s : StoreState) (p : PayoutRow) (bid prn : ℕ)
    (b : CommunityBounty) (vr : VerificationResult) (gu inst w : String)
    (rc : CompletionReceipt)
    (hdup : hasPayout s (p.repositoryGithubId, p.issueNumber) = true)
    (hb : getCommunityBounty s bid = some b)
    (hst : b.status = CBStatus.claimed)
    (hprn : b.claimedPrNumber = some prn)
    (hgu : b.claimedByGithubUsername = some gu)
    (hins : b.githubInstallationId = some inst)
    (hv : vr.verified = true) :
    recordPayout s p = .error "Payout already recorded for this issue" ∧
    (processClaimedBounty s bid
        { verify := CallOutcome.ok vr
          contributorWallet := CallOutcome.ok (some w)
          ledger := CallOutcome.ok rc
          finalUpdate := CallOutcome.ok () }).2 = [settlementKey b] := by
  constructor
  · unfold recordPayout
    rw [if_pos hdup]
  · simp [processClaimedBounty, hb, hst, hprn, hgu, hins, hv]

/-- Payout row fixture matching the settlement key of claimedBounty. -/
def payoutRowFixture : PayoutRow :=
  { repositoryGithubId := "community-octo-reposix"
    issueNumber := 5
    contributorGithubUsername := "alice"
    contributorPayout := 975/10
    transactionHash := "0xt1" }

/-- Store fixture with the claimed bounty and its payout already recorded. -/
def claimedStoreWithPayout : StoreState :=
  { bounties := [claimedBounty], payouts := [payoutRowFixture], deliveries := [] }

/-- Witness for C3 amended on the fixture with an existing payout row. -/
theorem recordPayout_amended_witness :
    recordPayout claimedStoreWithPayout payoutRowFixture
        = .error "Payout already recorded for this issue" ∧
    (processClaimedBounty claimedStoreWithPayout 1 ledgerOkEnv).2
        = [settlementKey claimedBounty] :=
  recordPayout_amended claimedStoreWithPayout payoutRowFixture 1 7 claimedBounty
    { verified := true, error := none } "alice" "777" "0xwallet"
    { txHash := "0xt2", blockNumber := 101 }
    (by rfl) (by rfl) (by rfl) (by rfl) (by rfl) (by rfl) (by rfl)

/-- Result returned by the blockchain create-escrow call as the pay route
sees it; the confirmed flag stands for on-chain receipt success, which the
route never reads (docs/SECURITY_AUDIT_FINDINGS.md CRITICAL-4). -/
structure PayLedgerResult where
  txHash : String
  chainBountyId : ℕ
  confirmed : Bool
deriving DecidableEq, Repr

/-- POST /api/community-bounties/:id/pay (src/unnamed/part_009 lines
199-308): after the not-found, creator, and pending_payment checks, the
route awaits the blockchain create call; a thrown error is answered with
HTTP 500 and no update, while any returned result leads directly to an
UPDATE to status funded with the returned hash and on-chain id, without
any confirmation check. -/
def payCommunityBounty (s : StoreState) (bountyId userId : ℕ)
    (ledger : CallOutcome PayLedgerResult) : ℕ × StoreState :=
  match getCommunityBounty s bountyId with
  | none => (404, s)
  | some bounty =>
    if bounty.creatorUserId ≠ userId then (403, s)
    else if bounty.status ≠ CBStatus.pendingPayment then (400, s)
    else
      match ledger with
      | .thrown _ => (500, s)
      | .ok r =>
        (200, putCommunityBounty s bountyId { bounty with
          status := CBStatus.funded
          escrowTxHash := some r.txHash
          blockchainBountyId := some r.chainBountyId })

/-- Fixture: the bounty before payment. -/
def pendingBounty : CommunityBounty :=
  { baseBounty with
    status := CBStatus.pendingPayment
    escrowTxHash := none
    blockchainBountyId := none }

/-- Store fixture holding one bounty awaiting payment. -/
def pendingStore : StoreState :=
  { bounties := [pendingBounty], payouts := [], deliveries := [] }

/-- Claim C5 (code bug): a thrown ledger call leaves the bounty in
pending_payment with no funding fields (HTTP 500), but a ledger call that
returns an unconfirmed result (confirmed false, e.g. a reverted or fake
transaction) still flips the bounty to funded and stores the returned hash
and id: the route marks funded without the call having confirmably
succeeded, the defect recorded as CRITICAL-4 in
docs/SECURITY_AUDIT_FINDINGS.md. -/
theorem unconfirmed_payment_marks_funded :
    (payCommunityBounty pendingStore 1 10 (CallOutcome.thrown "timeout")).1 = 500 ∧
    (payCommunityBounty pendingStore 1 10 (CallOutcome.thrown "timeout")).2 = pendingStore ∧
    (payCommunityBounty pendingStore 1 10
        (CallOutcome.ok { txHash := "0xunconfirmed", chainBountyId := 9, confirmed := false })).1
      = 200 ∧
    (getCommunityBounty (payCommunityBounty pendingStore 1 10
        (CallOutcome.ok { txHash := "0xunconfirmed", chainBountyId := 9, confirmed := false })).2
        1).map CommunityBounty.status = some CBStatus.funded ∧
    (getCommunityBounty (payCommunityBounty pendingStore 1 10
        (CallOutcome.ok { txHash := "0xunconfirmed", chainBountyId := 9, confirmed := false })).2
        1).map CommunityBounty.escrowTxHash = some (some "0xunconfirmed") := by
  exact ⟨rfl, rfl, rfl, rfl, rfl⟩

/-- storage.getClaimedCommunityBounties: all bounties in claimed status. -/
def getClaimedCommunityBounties (s : StoreState) : List CommunityBounty :=
  s.bounties.filter (fun b => decide (b.status = CBStatus.claimed))

/-- Sequential loop of processClaimedBounties: each bounty is awaited
before the next one starts (for ... await with a fixed delay in between),
accumulating the ledger invocations of the cycle. -/
def sweepGo (s : StoreState) (ids : List ℕ) (envs : ℕ → RelayerEnv) :
    StoreState × List (String × ℕ) :=
  match ids with
  | [] => (s, [])
  | i :: rest =>
    let r := processClaimedBounty s i (envs i)
    let rr := sweepGo r.1 rest envs
    (rr.1, r.2 ++ rr.2)

/-- server/communityBountyRelayer.ts processClaimedBounties: fetch the
claimed bounties, then drive each through processClaimedBounty strictly
sequentially. -/
def processClaimedBounties (s : StoreState) (envs : ℕ → RelayerEnv) :
    StoreState × List (String × ℕ) :=
  sweepGo s ((getClaimedCommunityBounties s).map (fun b => b.id)) envs

/-- startCommunityBountyRelayer scheduling: one immediate run at time 0,
then setInterval with the given interval.  The interval callback is an
async function setInterval never awaits, and the source has no
single-flight flag, so cycle n begins at n * intervalMs unconditionally. -/
def sweepStartTime (intervalMs n : ℕ) : ℕ := n * intervalMs

/-- Cycle n is in progress at time t when t lies between its start time and
its start time plus its duration. -/
def sweepInProgress (intervalMs : ℕ) (duration : ℕ → ℕ) (n t : ℕ) : Prop :=
  sweepStartTime intervalMs n ≤ t ∧ t < sweepStartTime intervalMs n + duration n

/-- Counterexample to C8 as stated: with the default 30000 ms interval and
a first cycle that takes 40000 ms (claimed bounties each add a mandatory
2000 ms delay plus network calls), cycle 1 starts at t = 30000 while cycle
0 is still in progress: no single-flight guard exists. -/
theorem sweep_overlap_counterexample :
    sweepInProgress 30000 (fun _ => 40000) 0 (sweepStartTime 30000 1) ∧
    sweepInProgress 30000 (fun _ => 40000) 1 (sweepStartTime 30000 1) := by
  constructor <;> constructor <;> norm_num [sweepInProgress, sweepStartTime]

/-- Claim C8 amended: within one cycle bounties are processed strictly
sequentially, each bounty running on the state left by the previous one;
but the interval timer has no single-flight guard, so a new cycle starts at
every interval tick and overlaps the previous cycle exactly when that cycle
runs longer than the interval. -/
theorem sweep_spec_amended (intervalMs : ℕ) (d : ℕ → ℕ) (n : ℕ) :
    (sweepInProgress intervalMs d n (sweepStartTime intervalMs (n+1)) ↔ intervalMs < d n) ∧
    (∀ (s : StoreState) (envs : ℕ → RelayerEnv) (i : ℕ) (rest : List ℕ),
      sweepGo s (i :: rest) envs
        = ((sweepGo (processClaimedBounty s i (envs i)).1 rest envs).1,
            (processClaimedBounty s i (envs i)).2
              ++ (sweepGo (processClaimedBounty s i (envs i)).1 rest envs).2)) := by
  constructor
  · unfold sweepInProgress sweepStartTime
    have h : (n + 1) * intervalMs = n * intervalMs + intervalMs := by ring
    rw [h]
    generalize n * intervalMs = a
    omega
  · intro s envs i rest
    rfl

/-- ASCII digit test for the decimal pattern. -/
def isDigitChar (c : Char) : Bool := 48 ≤ c.toNat && c.toNat ≤ 57

/-- Numeric value of a digit string, most significant digit first. -/
def digitsVal : List Char → ℕ → ℕ
  | [], acc => acc
  | c :: cs, acc => digitsVal cs (10 * acc + (c.toNat - 48))

/-- Nonempty all-digit character list. -/
def isDigits (l : List Char) : Bool := !l.isEmpty && l.all isDigitChar

/-- Whitespace tokenizer used to model regex token boundaries. -/
def tokenizeAux : List Char → List Char → List String
  | [], acc => if acc.isEmpty then [] else [String.mk acc.reverse]
  | c :: cs, acc =>
    if c = ' ' then
      if acc.isEmpty then tokenizeAux cs []
      else String.mk acc.reverse :: tokenizeAux cs []
    else tokenizeAux cs (c :: acc)

/-- Split a comment into whitespace-separated tokens. -/
def tokenize (s : String) : List String := tokenizeAux s.data []

/-- Split on the decimal dot, keeping empty segments (so a trailing dot or
a double dot is rejected by the digit test). -/
def dotSplitAux : List Char → List Char → List (List Char)
  | [], acc => [acc.reverse]
  | c :: cs, acc =>
    if c = '.' then acc.reverse :: dotSplitAux cs []
    else dotSplitAux cs (c :: acc)

/-- Dot segments of an amount lexeme. -/
def dotSplit (s : String) : List (List Char) := dotSplitAux s.data []

/-- Exact fixed-point components of an amount lexeme: integer part,
fractional digits value, and number of fractional digits. -/
structure Decimal8 where
  intPart : ℕ
  fracPart : ℕ
  fracLen : ℕ
deriving DecidableEq, Repr

/-- Modelled from the spec: the amount lexeme rule of parseBountyCommand
(server/github.ts lines 1216-1369, which are not in the source tree) — a
fixed-precision decimal pattern, digits optionally followed by a dot and
one to eight fractional digits. -/
def readDecimal8 (s : String) : Option Decimal8 :=
  match dotSplit s with
  | [w] => if isDigits w then some ⟨digitsVal w 0, 0, 0⟩ else none
  | [w, f] =>
    if isDigits w && isDigits f && decide (f.length ≤ 8) then
      some ⟨digitsVal w 0, digitsVal f 0, f.length⟩
    else none
  | _ => none

/-- Exact rational value of the fixed-point components. -/
def Decimal8.value (d : Decimal8) : ℚ :=
  (d.intPart : ℚ) + (d.fracPart : ℚ) / (10 ^ d.fracLen : ℚ)

/-- Modelled from the spec: amount validation of the command parser — the
amount must parse to a value at least 1 and at most one million.  The
bounds are checked on the exact fixed-point components: for fracPart
strictly below 10 ^ fracLen, 1 ≤ value holds iff 1 ≤ intPart, and value ≤
1000000 holds iff intPart * 10 ^ fracLen + fracPart ≤ 1000000 * 10 ^
fracLen. -/
def parseAmount (s : String) : Option ℚ :=
  match readDecimal8 s with
  | none => none
  | some d =>
    if 1 ≤ d.intPart ∧ d.intPart * 10 ^ d.fracLen + d.fracPart ≤ 1000000 * 10 ^ d.fracLen then
      some d.value
    else none

/-- Modelled from the spec: currency validation — one of the three
supported tokens, case-sensitive uppercase. -/
def parseCurrency (s : String) : Option Currency :=
  if s = "XDC" then some Currency.XDC
  else if s = "ROXN" then some Currency.ROXN
  else if s = "USDC" then some Currency.USDC
  else none

/-- Tagged command variants produced by the parser. -/
inductive BountyCommand
  | communityClaim (prNumber : ℕ)
  | statusCheck
  | poolAllocate (amount : ℚ) (currency : Currency)
  | communityCreate (amount : ℚ) (currency : Currency)
  | request
deriving DecidableEq, Repr

/-- PR reference of a claim command: digits with an optional leading hash
sign. -/
def parsePrRef (s : String) : Option ℕ :=
  match s.data with
  | '#' :: rest => if isDigits rest then some (digitsVal rest 0) else none
  | l => if isDigits l then some (digitsVal l 0) else none

/-- ASCII lowercase of one character. -/
def lowerChar (c : Char) : Char :=
  if 65 ≤ c.toNat ∧ c.toNat ≤ 90 then Char.ofNat (c.toNat + 32) else c

/-- ASCII lowercase of a token. -/
def lowerStr (s : String) : String := String.mk (s.data.map lowerChar)

/-- Scan for the case-insensitive adjacent pair of the status mention. -/
def hasStatusMentionAux : Option String → List String → Bool
  | _, [] => false
  | prev, b :: rest =>
    (match prev with
      | some a => lowerStr a == "@roxonn" && lowerStr b == "status"
      | none => false) || hasStatusMentionAux (some b) rest

/-- Status-check mention anywhere in the token list. -/
def hasStatusMention (ts : List String) : Bool := hasStatusMentionAux none ts

/-- Claim-with-PR-number pattern, the most specific command. -/
def tryClaim : List String → Option BountyCommand
  | "/claim" :: pr :: _ => (parsePrRef pr).map BountyCommand.communityClaim
  | _ => none

/-- Pool-scoped bounty creation pattern. -/
def tryPool : List String → Option BountyCommand
  | "/bounty" :: "pool" :: amt :: cur :: _ =>
    match parseAmount amt, parseCurrency cur with
    | some a, some c => some (BountyCommand.poolAllocate a c)
    | _, _ => none
  | _ => none

/-- Bare bounty creation pattern (permissionless default). -/
def tryCreate : List String → Option BountyCommand
  | "/bounty" :: amt :: cur :: _ =>
    match parseAmount amt, parseCurrency cur with
    | some a, some c => some (BountyCommand.communityCreate a c)
    | _, _ => none
  | _ => none

/-- Bare request pattern: the command word alone. -/
def tryRequest : List String → Option BountyCommand
  | ["/bounty"] => some BountyCommand.request
  | _ => none

/-- Priority-ordered matching over the token list: claim with PR number,
status mention, pool creation, bare creation, bare request. -/
def parseTokens (tokens : List String) : Option BountyCommand :=
  match tryClaim tokens with
  | some c => some c
  | none =>
    if hasStatusMention tokens then some BountyCommand.statusCheck
    else
      match tryPool tokens with
      | some c => some c
      | none =>
        match tryCreate tokens with
        | some c => some c
        | none => tryRequest tokens

/-- Modelled from the spec: parseBountyCommand of server/github.ts (not in
the source tree) — turns free comment text into a typed command or none;
unrecognized text and invalid amounts yield none, never an error. -/
def parseBountyCommand (text : String) : Option BountyCommand :=
  parseTokens (tokenize text)

lemma digitsVal_lt (l : List Char) (h : l.all isDigitChar = true) (acc : ℕ) :
    digitsVal l acc < (acc + 1) * 10 ^ l.length := by
  induction l generalizing acc with
  | nil => simp [digitsVal]
  | cons c cs ih =>
    simp only [List.all_cons, Bool.and_eq_true] at h
    have hc : c.toNat - 48 ≤ 9 := by
      have hd := h.1
      simp only [isDigitChar, Bool.and_eq_true, decide_eq_true_eq] at hd
      omega
    calc digitsVal (c :: cs) acc
        = digitsVal cs (10 * acc + (c.toNat - 48)) := rfl
      _ < (10 * acc + (c.toNat - 48) + 1) * 10 ^ cs.length := ih h.2 _
      _ ≤ ((acc + 1) * 10) * 10 ^ cs.length := by
          apply Nat.mul_le_mul_right
          omega
      _ = (acc + 1) * 10 ^ (cs.length + 1) := by ring
      _ = (acc + 1) * 10 ^ (c :: cs).length := by rw [List.length_cons]

lemma readDecimal8_bounds {s : String} {d : Decimal8} (h : readDecimal8 s = some d) :
    d.fracPart < 10 ^ d.fracLen ∧ d.fracLen ≤ 8 := by
  unfold readDecimal8 at h
  split at h
  · split at h
    · injection h with h
      subst h
      simp
    · exact absurd h (by simp)
  · rename_i w f hsplit
    split at h
    · rename_i hcond
      simp only [Bool.and_eq_true, decide_eq_true_eq] at hcond
      injection h with h
      subst h
      refine ⟨?_, hcond.2⟩
      have hall : f.all isDigitChar = true := by
        have := hcond.1.2
        simp only [isDigits, Bool.and_eq_true] at this
        exact this.2
      have := digitsVal_lt f hall 0
      simpa using this
    · exact absurd h (by simp)
  · exact absurd h (by simp)

lemma value_one_le {d : Decimal8} (h1 : 1 ≤ d.intPart) : 1 ≤ d.value := by
  unfold Decimal8.value
  have hfrac : (0 : ℚ) ≤ (d.fracPart : ℚ) / (10 ^ d.fracLen : ℚ) := by positivity
  have hint : (1 : ℚ) ≤ (d.intPart : ℚ) := by exact_mod_cast h1
  linarith

lemma value_le_million {d : Decimal8}
    (h2 : d.intPart * 10 ^ d.fracLen + d.fracPart ≤ 1000000 * 10 ^ d.fracLen) :
    d.value ≤ 1000000 := by
  unfold Decimal8.value
  have hP : (0 : ℚ) < (10 : ℚ) ^ d.fracLen := by positivity
  rw [← sub_nonneg]
  have hv : (1000000 : ℚ) - ((d.intPart : ℚ) + (d.fracPart : ℚ) / (10 ^ d.fracLen : ℚ))
      = (((1000000 * 10 ^ d.fracLen : ℕ) : ℚ) - ((d.intPart * 10 ^ d.fracLen + d.fracPart : ℕ) : ℚ))
        / (10 ^ d.fracLen : ℚ) := by
    push_cast
    field_simp
  rw [hv]
  apply div_nonneg _ (le_of_lt hP)
  rw [sub_nonneg]
  exact_mod_cast h2

lemma value_fixed {d : Decimal8} (hL : d.fracLen ≤ 8) :
    ∃ n : ℕ, d.value = (n : ℚ) / 100000000 := by
  refine ⟨(d.intPart * 10 ^ d.fracLen + d.fracPart) * 10 ^ (8 - d.fracLen), ?_⟩
  unfold Decimal8.value
  have hP : ((10 : ℚ) ^ d.fracLen) ≠ 0 := by positivity
  have h8 : (100000000 : ℚ) = 10 ^ d.fracLen * 10 ^ (8 - d.fracLen) := by
    rw [← pow_add]
    have he : d.fracLen + (8 - d.fracLen) = 8 := by omega
    rw [he]
    norm_num
  rw [h8]
  push_cast
  field_simp
  ring

lemma parseAmount_sound {s : String} {a : ℚ} (h : parseAmount s = some a) :
    1 ≤ a ∧ a ≤ 1000000 ∧ ∃ n : ℕ, a = (n : ℚ) / 100000000 := by
  unfold parseAmount at h
  split at h
  · exact absurd h (by simp)
  · rename_i d hrd
    split at h
    · rename_i hcond
      injection h with h
      subst h
      obtain ⟨hfr, hL⟩ := readDecimal8_bounds hrd
      exact ⟨value_one_le hcond.1, value_le_million hcond.2, value_fixed hL⟩
    · exact absurd h (by simp)

lemma tryClaim_shape {ts : List String} {cmd : BountyCommand}
    (h : tryClaim ts = some cmd) : ∃ k, cmd = BountyCommand.communityClaim k := by
  unfold tryClaim at h
  split at h
  · rename_i pr rest
    cases hp : parsePrRef pr with
    | none => rw [hp] at h; exact absurd h (by simp)
    | some k =>
      rw [hp] at h
      simp at h
      exact ⟨k, h.symm⟩
  · exact absurd h (by simp)

lemma tryPool_inv {ts : List String} {cmd : BountyCommand}
    (h : tryPool ts = some cmd) :
    ∃ a c amt, parseAmount amt = some a ∧ cmd = BountyCommand.poolAllocate a c := by
  unfold tryPool at h
  split at h
  · rename_i amt cur rest
    split at h
    · rename_i a c ha hc
      simp only [Option.some.injEq] at h
      exact ⟨a, c, amt, ha, h.symm⟩
    · exact absurd h (by simp)
  · exact absurd h (by simp)

lemma tryCreate_inv {ts : List String} {cmd : BountyCommand}
    (h : tryCreate ts = some cmd) :
    ∃ a c amt, parseAmount amt = some a ∧ cmd = BountyCommand.communityCreate a c := by
  unfold tryCreate at h
  split at h
  · rename_i amt cur rest
    split at h
    · rename_i a c ha hc
      simp only [Option.some.injEq] at h
      exact ⟨a, c, amt, ha, h.symm⟩
    · exact absurd h (by simp)
  · exact absurd h (by simp)

lemma tryRequest_shape {ts : List String} {cmd : BountyCommand}
    (h : tryRequest ts = some cmd) : cmd = BountyCommand.request := by
  unfold tryRequest at h
  split at h
  · simp only [Option.some.injEq] at h
    exact h.symm
  · exact absurd h (by simp)

/-- Case analysis of parseTokens results: none, a claim, a status check, a
request, or a creation command whose amount passed parseAmount. -/
lemma parseTokens_cases (ts : List String) :
    parseTokens ts = none ∨
    (∃ k, parseTokens ts = some (BountyCommand.communityClaim k)) ∨
    parseTokens ts = some BountyCommand.statusCheck ∨
    parseTokens ts = some BountyCommand.request ∨
    (∃ a c amt, parseAmount amt = some a ∧
      (parseTokens ts = some (BountyCommand.poolAllocate a c) ∨
       parseTokens ts = some (BountyCommand.communityCreate a c))) := by
  unfold parseTokens
  cases hc1 : tryClaim ts with
  | some c0 =>
    obtain ⟨k, rfl⟩ := tryClaim_shape hc1
    exact Or.inr (Or.inl ⟨k, rfl⟩)
  | none =>
    by_cases hst : hasStatusMention ts
    · rw [if_pos hst]
      exact Or.inr (Or.inr (Or.inl rfl))
    · rw [if_neg hst]
      cases hp : tryPool ts with
      | some c0 =>
        obtain ⟨a0, c0c, amt, ha, rfl⟩ := tryPool_inv hp
        exact Or.inr (Or.inr (Or.inr (Or.inr ⟨a0, c0c, amt, ha, Or.inl rfl⟩)))
      | none =>
        cases hcr : tryCreate ts with
        | some c0 =>
          obtain ⟨a0, c0c, amt, ha, rfl⟩ := tryCreate_inv hcr
          exact Or.inr (Or.inr (Or.inr (Or.inr ⟨a0, c0c, amt, ha, Or.inr rfl⟩)))
        | none =>
          cases hrq : tryRequest ts with
          | some c0 =>
            have := tryRequest_shape hrq
            subst this
            exact Or.inr (Or.inr (Or.inr (Or.inl rfl)))
          | none => exact Or.inl rfl

/-- Claim C9 (spec-modelled): the comment command parser accepts a
bounty-creation amount only when it matches a fixed-precision decimal
pattern with at most 8 fractional digits and parses to a value at least 1
and at most one million, with the currency one of the three supported
uppercase tokens (enforced by the Currency type of the command); text with
an amount outside these bounds, or any unrecognized text, yields none
rather than an error. -/
theorem parseBountyCommand_spec (text : String) (a : ℚ) (c : Currency) :
    ((parseBountyCommand text = some (BountyCommand.communityCreate a c) ∨
      parseBountyCommand text = some (BountyCommand.poolAllocate a c)) →
      1 ≤ a ∧ a ≤ 1000000 ∧ ∃ n : ℕ, a = (n : ℚ) / 100000000) ∧
    parseBountyCommand "/bounty 2000000 USDC" = none ∧
    parseBountyCommand "/bounty 0.5 USDC" = none ∧
    parseBountyCommand "/bounty 1.123456789 XDC" = none ∧
    parseBountyCommand "/bounty 100 usdc" = none ∧
    parseBountyCommand "hello world" = none := by
  refine ⟨?_, by rfl, by rfl, by rfl, by rfl, by rfl⟩
  intro h
  have hval : ∃ amt, parseAmount amt = some a := by
    rcases parseTokens_cases (tokenize text) with hcase | ⟨k, hcase⟩ | hcase | hcase |
        ⟨a0, c0, amt, ha, hpc⟩
    · rcases h with h | h <;> unfold parseBountyCommand at h <;> rw [hcase] at h <;>
        simp at h
    · rcases h with h | h <;> unfold parseBountyCommand at h <;> rw [hcase] at h <;>
        simp at h
    · rcases h with h | h <;> unfold parseBountyCommand at h <;> rw [hcase] at h <;>
        simp at h
    · rcases h with h | h <;> unfold parseBountyCommand at h <;> rw [hcase] at h <;>
        simp at h
    · rcases h with h | h <;> unfold parseBountyCommand at h <;>
        rcases hpc with hp2 | hp2 <;> rw [hp2] at h <;> simp at h <;>
        exact ⟨amt, h.1 ▸ ha⟩
  obtain ⟨amt2, ha2⟩ := hval
  exact parseAmount_sound ha2

/-- Witness for C9: /bounty 100 USDC parses to a community creation whose
amount satisfies the bounds. -/
theorem parseBountyCommand_spec_witness :
    parseBountyCommand "/bounty 100 USDC"
        = some (BountyCommand.communityCreate (Decimal8.value ⟨100, 0, 0⟩) Currency.USDC) ∧
    (1 ≤ Decimal8.value ⟨100, 0, 0⟩ ∧ Decimal8.value ⟨100, 0, 0⟩ ≤ 1000000 ∧
      ∃ n : ℕ, Decimal8.value ⟨100, 0, 0⟩ = (n : ℚ) / 100000000) := by
  have h : parseBountyCommand "/bounty 100 USDC"
      = some (BountyCommand.communityCreate (Decimal8.value ⟨100, 0, 0⟩) Currency.USDC) := by
    rfl
  exact ⟨h, (parseBountyCommand_spec "/bounty 100 USDC"
    (Decimal8.value ⟨100, 0, 0⟩) Currency.USDC).1 (Or.inl h)⟩

/-- On-chain bounty status enum of CommunityBountyEscrow.sol (default slot
value is the first member, used for nonexistent ids). -/
inductive EscrowStatus
  | ACTIVE
  | COMPLETED
  | REFUNDED
  | CANCELLED
deriving DecidableEq, Repr

/-- On-chain bounty struct of CommunityBountyEscrow.sol; addresses are
embedded as naturals (0 is the zero address) and uint256 amounts as
naturals (Solidity 0.8 reverts on overflow, so in-range arithmetic is
exact). -/
structure EscrowBounty where
  creator : ℕ
  amount : ℕ
  currency : Currency
  expiresAt : ℕ
  status : EscrowStatus
deriving DecidableEq, Repr

/-- Storage of CommunityBountyEscrow.sol restricted to what completeBounty
reads and writes. -/
structure EscrowState where
  bounties : List (ℕ × EscrowBounty)
  relayer : ℕ
  feeCollector : ℕ
  platformFeeRate : ℕ
  contributorFeeRate : ℕ
deriving DecidableEq, Repr

/-- Mapping lookup (a missing id behaves as a default struct and fails the
status check in completeBounty, so returning none is equivalent). -/
def escrowLookup (st : EscrowState) (bountyId : ℕ) : Option EscrowBounty :=
  (st.bounties.find? (fun p => p.1 == bountyId)).map (fun p => p.2)

/-- One token transfer performed by the contract. -/
structure Transfer where
  recipient : ℕ
  amount : ℕ
deriving DecidableEq, Repr

/-- CommunityBountyEscrow.completeBounty (contracts/CommunityBountyEscrow.sol
lines 357-402): relayer-only; requires an ACTIVE, unexpired bounty and a
nonzero contributor; computes platformFee and contributorFee as basis
points of the escrowed amount with uint division, marks the bounty
COMPLETED, transfers the net amount to the contributor and both fees to the
fee collector.  Returns the new state and the two transfers, or the revert
message. -/
def completeBounty (st : EscrowState) (caller bountyId contributor nowTs : ℕ) :
    Except String (EscrowState × Transfer × Transfer) :=
  if caller ≠ st.relayer then .error "Only relayer can call"
  else
    match escrowLookup st bountyId with
    | none => .error "Bounty not active"
    | some b =>
      if b.status ≠ EscrowStatus.ACTIVE then .error "Bounty not active"
      else if contributor = 0 then .error "Invalid contributor"
      else if b.expiresAt > 0 ∧ nowTs > b.expiresAt then .error "Bounty expired"
      else
        let platformFee := b.amount * st.platformFeeRate / 10000
        let contributorFee := b.amount * st.contributorFeeRate / 10000
        let netAmount := b.amount - platformFee - contributorFee
        let nb := { b with status := EscrowStatus.COMPLETED }
        .ok ({ st with bounties :=
                st.bounties.map (fun p => if p.1 = bountyId then (p.1, nb) else p) },
          { recipient := contributor, amount := netAmount },
          { recipient := st.feeCollector, amount := platformFee + contributorFee })

/-- Claim C10: with the initialized fee rates (50 + 50 basis points, 1 %
total), completeBounty pays the contributor the escrowed amount minus both
fees and sends the fees to the fee collector; for an escrowed amount
divisible by 200 the net payout is exactly 99 % of the escrowed total — and
this differs from the base minus 2.5 % contributor fee that the store
records as contributorPayout: for base 100 (escrowed total 102.5, with 18
decimals 102500 * 10 ^ 15 units) the chain pays 101475 * 10 ^ 15 units,
not the 97.5 tokens the store records. -/
theorem completeBounty_fee_spec (st : EscrowState) (caller bountyId contributor nowTs : ℕ)
    (b : EscrowBounty)
    (hrate1 : st.platformFeeRate = 50) (hrate2 : st.contributorFeeRate = 50)
    (hcaller : caller = st.relayer) (hfound : escrowLookup st bountyId = some b)
    (hactive : b.status = EscrowStatus.ACTIVE) (hcontrib : contributor ≠ 0)
    (hexp : ¬ (b.expiresAt > 0 ∧ nowTs > b.expiresAt)) (hdiv : 200 ∣ b.amount) :
    (∃ st2, completeBounty st caller bountyId contributor nowTs
      = .ok (st2,
          { recipient := contributor, amount := b.amount - b.amount * 50 / 10000 - b.amount * 50 / 10000 },
          { recipient := st.feeCollector,
            amount := b.amount * 50 / 10000 + b.amount * 50 / 10000 })) ∧
    b.amount - b.amount * 50 / 10000 - b.amount * 50 / 10000 = 99 * b.amount / 100 ∧
    ((99 * (102500 * 10 ^ 15) / 100 : ℕ) : ℚ)
      ≠ 10 ^ 18 * (calculateBountyFees 100).contributorPayout := by
  refine ⟨⟨{ st with
      bounties := st.bounties.map
        (fun p => if p.1 = bountyId then (p.1, { b with status := EscrowStatus.COMPLETED }) else p) },
      ?_⟩, ?_, ?_⟩
  · simp [completeBounty, hcaller, hfound, hrate1, hrate2, hactive, hcontrib, hexp]
  · obtain ⟨k, hk⟩ := hdiv
    rw [hk]
    have h1 : 200 * k * 50 / 10000 = k := by omega
    rw [h1]
    omega
  · have hpay : (calculateBountyFees 100).contributorPayout = 195/2 := by
      have hcf : roundTo8 ((100 : ℚ) * (25/1000)) = 5/2 := by
        rw [show ((100 : ℚ) * (25/1000)) = ((250000000 : ℤ) : ℚ) / 100000000 by norm_num,
          roundTo8_int]
        norm_num
      rw [fees_payout, hcf,
        show ((100 : ℚ) - 5/2) = ((9750000000 : ℤ) : ℚ) / 100000000 by norm_num,
        roundTo8_int]
      norm_num
    rw [hpay]
    norm_num

/-- Escrow fixture: one active bounty of 200 units with the initialized
rates. -/
def escrowFixture : EscrowState :=
  { bounties := [(1,
      { creator := 7
        amount := 200
        currency := Currency.USDC
        expiresAt := 0
        status := EscrowStatus.ACTIVE })]
    relayer := 3
    feeCollector := 4
    platformFeeRate := 50
    contributorFeeRate := 50 }

/-- Witness for C10 on the escrow fixture: the relayer completes bounty 1
for contributor 9. -/
theorem completeBounty_fee_spec_witness :
    (∃ st2, completeBounty escrowFixture 3 1 9 1000
      = .ok (st2, { recipient := 9, amount := 200 - 200 * 50 / 10000 - 200 * 50 / 10000 },
          { recipient := 4, amount := 200 * 50 / 10000 + 200 * 50 / 10000 })) ∧
    200 - 200 * 50 / 10000 - 200 * 50 / 10000 = 99 * 200 / 100 ∧
    ((99 * (102500 * 10 ^ 15) / 100 : ℕ) : ℚ)
      ≠ 10 ^ 18 * (calculateBountyFees 100).contributorPayout := by
  have h := completeBounty_fee_spec escrowFixture 3 1 9 1000
    { creator := 7
      amount := 200
      currency := Currency.USDC
      expiresAt := 0
      status := EscrowStatus.ACTIVE }
    (by rfl) (by rfl) (by rfl) (by rfl) (by rfl) (by norm_num) (by norm_num) (by norm_num)
  exact h

end Roxonn
